import Mathlib

/-!
Verification development for `slicer_helper.py`.

The module is glue over the Slicer host application: it allocates numpy
arrays and VTK matrices, adds nodes to the host scene graph (MRML scene),
and wires them together.  We embed the host state shallowly as a `Host`
structure holding the scene-graph node list together with an object store
for numpy arrays, voxel buffers and VTK matrix objects, so that aliasing
between a numpy view and the storage it aliases is expressible.  Host API
calls (`slicer.*`, `vtk.*`, `numpy`) are modelled as small state
transformers, each documented with the host call it models; the functions
and classes of `slicer_helper.py` are then translated call for call.
-/

/-- Entries of numpy arrays and VTK matrices are modelled as rationals
(the code uses double precision floats only to carry values around; no
claim depends on rounding). -/
abbrev Mat3 : Type := Matrix (Fin 3) (Fin 3) ℚ

/-- 4x4 matrices, the payload of `vtkMatrix4x4` and of 4x4 numpy arrays. -/
abbrev Mat4 : Type := Matrix (Fin 4) (Fin 4) ℚ

/-- A value held in the object store: numpy arrays of the shapes the code
distinguishes (`(4,4)`, `(3,3)`, 1-D voxel buffers, anything else) and VTK
matrix objects (`vtkMatrix4x4`, `vtkMatrix3x3`, anything else). -/
inductive ObjVal : Type
  | npMat4 (m : Mat4)
  | npMat3 (m : Mat3)
  | npVox (data : List Int)
  | npOther
  | vtk4 (m : Mat4)
  | vtk3 (m : Mat3)
  | pyOther

/-- Payload of a scene-graph node, for the node kinds `slicer_helper.py`
touches: IGTL connector nodes, transform nodes, model nodes with their
display nodes, label volumes with their volume-rendering display nodes. -/
inductive NodeData : Type
  | connector (isClient : Bool) (ip : String) (port : Int) (started : Bool)
  | transform (toParent : Mat4) (parent : Option Nat)
  | model (filename : String) (observedTransform : Option Nat) (displayID : Option Nat)
  | modelDisplay
  | labelVolume (filename : String) (imageRef : Nat) (displayIDs : List Nat)
  | volDisplay (updatedFrom : Option Nat)

/-- A node of the host scene graph.  `mtime` counts the `Modified`
notifications the node has received. -/
structure Node : Type where
  id : Nat
  name : String
  data : NodeData
  mtime : Nat

/-- The host state: the MRML scene (node list plus a fresh-ID counter) and
the object store (heap of numpy/VTK objects plus a fresh-reference
counter). -/
structure Host : Type where
  nodes : List Node
  nextNodeID : Nat
  heap : List (Nat × ObjVal)
  nextRef : Nat

/-- A host with an empty scene and an empty object store. -/
def Host.empty : Host := ⟨[], 0, [], 0⟩

/-- Look a node up by ID in a node list (first match). -/
def findNodeIn (nodes : List Node) (nid : Nat) : Option Node :=
  nodes.find? (fun n => n.id == nid)

/-- Look a node of the scene up by ID. -/
def Host.findNode (h : Host) (nid : Nat) : Option Node :=
  findNodeIn h.nodes nid

/-- Models allocation of a fresh object (a new numpy array such as
`np.eye(n)`, or a new VTK object such as `vtkMatrix4x4()`): the value is
stored at a fresh reference. -/
def Host.alloc (h : Host) (v : ObjVal) : Host × Nat :=
  ({ h with heap := (h.nextRef, v) :: h.heap, nextRef := h.nextRef + 1 }, h.nextRef)

/-- Read the object stored at a reference. -/
def Host.readRef (h : Host) (r : Nat) : Option ObjVal :=
  (h.heap.find? (fun p => p.1 == r)).map Prod.snd

/-- Overwrite the object stored at a reference (models an in-place update
of an existing array or VTK object). -/
def Host.writeRef (h : Host) (r : Nat) (v : ObjVal) : Host :=
  { h with heap := h.heap.map (fun p => if p.1 == r then (r, v) else p) }

/-- Apply an update to the node with the given ID. -/
def Host.updNode (h : Host) (nid : Nat) (f : Node → Node) : Host :=
  { h with nodes := h.nodes.map (fun n => if n.id == nid then f n else n) }

/-- Models `slicer.mrmlScene.AddNode`: the node enters the scene under a
fresh node ID (names are not made unique by the scene). -/
def Host.addNode (h : Host) (name : String) (d : NodeData) : Host × Nat :=
  ({ h with nodes := ⟨h.nextNodeID, name, d, 0⟩ :: h.nodes,
            nextNodeID := h.nextNodeID + 1 },
   h.nextNodeID)

/-- Models `node.SetName(name)`. -/
def Host.setNodeName (h : Host) (nid : Nat) (name : String) : Host :=
  h.updNode nid (fun n => { n with name := name })

/-- Models `vtkMRMLIGTLConnectorNode.SetTypeClient(ip, port)`: the
connector is configured as a client of the given address. -/
def Host.setTypeClient (h : Host) (nid : Nat) (ip : String) (port : Int) : Host :=
  h.updNode nid (fun n => { n with data :=
    match n.data with
    | .connector _ _ _ st => .connector true ip port st
    | d => d })

/-- Models `vtkMRMLIGTLConnectorNode.Start()`: the network link of the
connector becomes active. -/
def Host.connectorStart (h : Host) (nid : Nat) : Host :=
  h.updNode nid (fun n => { n with data :=
    match n.data with
    | .connector c ip port _ => .connector c ip port true
    | d => d })

/-- Models `vtkObject.Modified()` on a scene node: the host is notified
that the node changed (bumps its modification time, which triggers
re-rendering). -/
def Host.nodeModified (h : Host) (nid : Nat) : Host :=
  h.updNode nid (fun n => { n with mtime := n.mtime + 1 })

/-- Well-formedness of a host state: every scene node ID and every store
reference is below the corresponding fresh counter. -/
def Host.WF (h : Host) : Prop :=
  (∀ n ∈ h.nodes, n.id < h.nextNodeID) ∧ (∀ p ∈ h.heap, p.1 < h.nextRef)

instance (h : Host) : Decidable h.WF :=
  inferInstanceAs (Decidable
    ((∀ n ∈ h.nodes, n.id < h.nextNodeID) ∧ (∀ p ∈ h.heap, p.1 < h.nextRef)))

/-! ### The vendored slicer.util matrix helpers (lines 45-143 of the source) -/

/-- Embeds `arrayFromVTKMatrix` (source lines 45-62): dispatch on the VTK
matrix type (`RuntimeError` otherwise), allocate a fresh `np.eye(n)` array,
then `vmatrix.DeepCopy(narray.ravel(), vmatrix)` overwrites every entry of
the raveled fresh buffer with the matrix elements, so the buffer ends up
holding exactly the matrix elements. -/
def arrayFromVTKMatrix (h : Host) (r : Nat) : Host × Except String Nat :=
  match h.readRef r with
  | some (.vtk4 m) =>
    let p := h.alloc (.npMat4 1)
    (p.1.writeRef p.2 (.npMat4 m), .ok p.2)
  | some (.vtk3 m) =>
    let p := h.alloc (.npMat3 1)
    (p.1.writeRef p.2 (.npMat3 m), .ok p.2)
  | _ => (h, .error "Input must be vtk.vtkMatrix3x3 or vtk.vtkMatrix4x4")

/-- Embeds `updateVTKMatrixFromArray` (source lines 86-102): dispatch on
the VTK matrix type (`RuntimeError` otherwise), check that the array shape
matches the matrix size (`RuntimeError` otherwise), then
`vmatrix.DeepCopy(narray.ravel())` overwrites the matrix in place with the
array entries.  Both raises happen before the `DeepCopy`, so on an error
the state is returned untouched. -/
def updateVTKMatrixFromArray (h : Host) (rv rn : Nat) : Host × Option String :=
  match h.readRef rv with
  | some (.vtk4 _) =>
    match h.readRef rn with
    | some (.npMat4 a) => (h.writeRef rv (.vtk4 a), none)
    | _ => (h, some "Input narray size must match output vmatrix size (4x4)")
  | some (.vtk3 _) =>
    match h.readRef rn with
    | some (.npMat3 a) => (h.writeRef rv (.vtk3 a), none)
    | _ => (h, some "Input narray size must match output vmatrix size (3x3)")
  | _ => (h, some "Output vmatrix must be vtk.vtkMatrix3x3 or vtk.vtkMatrix4x4")

/-- Embeds `vtkMatrixFromArray` (source lines 65-83): dispatch on the
array shape (`RuntimeError` for any other shape), allocate a fresh VTK
matrix (`vtkMatrix4x4()` / `vtkMatrix3x3()` initialise to the identity)
and fill it through `updateVTKMatrixFromArray`, propagating any raise. -/
def vtkMatrixFromArray (h : Host) (r : Nat) : Host × Except String Nat :=
  match h.readRef r with
  | some (.npMat4 _) =>
    let p := h.alloc (.vtk4 1)
    match updateVTKMatrixFromArray p.1 p.2 r with
    | (h2, none) => (h2, .ok p.2)
    | (h2, some e) => (h2, .error e)
  | some (.npMat3 _) =>
    let p := h.alloc (.vtk3 1)
    match updateVTKMatrixFromArray p.1 p.2 r with
    | (h2, none) => (h2, .ok p.2)
    | (h2, some e) => (h2, .error e)
  | _ => (h, .error "Unsupported numpy array shape: expected (4,4)")

/-- Models `vtkMRMLTransformNode.GetMatrixTransformToParent(vmatrix)` on
the linear transform nodes of the model: yields the transform-to-parent
matrix (`none` models the host reporting failure, e.g. the node is not a
linear transform node). -/
def Host.getMatrixTransformToParent (h : Host) (nid : Nat) : Option Mat4 :=
  match h.findNode nid with
  | some n =>
    match n.data with
    | .transform tp _ => some tp
    | _ => none
  | none => none

/-- Models `vtkMRMLTransformNode.GetParentTransformNode()`. -/
def Host.getParentTransformNode (h : Host) (nid : Nat) : Option Nat :=
  match h.findNode nid with
  | some n =>
    match n.data with
    | .transform _ par => par
    | _ => none
  | none => none

/-- Transform-to-world of a node in a node list: the product of the
transform-to-parent matrices along the parent chain
(`toWorld = parentToWorld * toParent`).  The fuel argument bounds the
chain length; exhausting it models the host reporting failure. -/
def toWorldIn (nodes : List Node) : Nat → Nat → Option Mat4
  | 0, _ => none
  | fuel + 1, nid =>
    match findNodeIn nodes nid with
    | some n =>
      match n.data with
      | .transform tp par =>
        match par with
        | none => some tp
        | some pid => (toWorldIn nodes fuel pid).map (fun pw => pw * tp)
      | _ => none
    | none => none

/-- Models `vtkMRMLTransformNode.GetMatrixTransformToWorld(vmatrix)`:
composes the parent chain (a chain longer than the scene, i.e. a cycle,
models failure). -/
def Host.getMatrixTransformToWorld (h : Host) (nid : Nat) : Option Mat4 :=
  toWorldIn h.nodes (h.nodes.length + 1) nid

/-- Models `vtkMRMLTransformNode.SetMatrixTransformToParent(vmatrix)`. -/
def Host.setMatrixTransformToParent (h : Host) (nid : Nat) (m : Mat4) : Host :=
  h.updNode nid (fun n => { n with data :=
    match n.data with
    | .transform _ par => .transform m par
    | d => d })

/-- Embeds `arrayFromTransformMatrix` (source lines 105-121): allocate a
`vtkMatrix4x4()`, fill it from `GetMatrixTransformToWorld` or
`GetMatrixTransformToParent` (raising `RuntimeError` if the host reports
failure), and convert it through `arrayFromVTKMatrix`. -/
def arrayFromTransformMatrix (h : Host) (nid : Nat) (toWorld : Bool) :
    Host × Except String Nat :=
  let p := h.alloc (.vtk4 1)
  match (if toWorld then p.1.getMatrixTransformToWorld nid
         else p.1.getMatrixTransformToParent nid) with
  | some m => arrayFromVTKMatrix (p.1.writeRef p.2 (.vtk4 m)) p.2
  | none => (p.1, .error "Failed to get transformation matrix from node")

/-- Models `numpy.linalg.inv` on a 4x4 array: inverse of a nonsingular
matrix via the adjugate formula. -/
def npInv (m : Mat4) : Mat4 := m.det⁻¹ • m.adjugate

/-- The `toWorld=False` branch of `updateTransformMatrixFromArray` (source
lines 140-143, including the shape check of lines 132-134 that every call
performs): allocate a `vtkMatrix4x4()`, fill it from the array through
`updateVTKMatrixFromArray`, and `SetMatrixTransformToParent` it on the
node.  The source's recursive call
`updateTransformMatrixFromArray(transformNode, thisToParent, toWorld=False)`
always takes exactly this branch, so the (depth-one) recursion is unfolded
into this helper. -/
def updateTransformToParentFromArray (h : Host) (nid rn : Nat) : Host × Option String :=
  match h.readRef rn with
  | some (.npMat4 _) =>
    let p := h.alloc (.vtk4 1)
    match updateVTKMatrixFromArray p.1 p.2 rn with
    | (h2, none) =>
      match h2.readRef p.2 with
      | some (.vtk4 m) => (h2.setMatrixTransformToParent nid m, none)
      | _ => (h2, some "unreachable")
    | (h2, some e) => (h2, some e)
  | _ => (h, some "Unsupported numpy array shape: expected (4,4)")

/-- Embeds `updateTransformMatrixFromArray` (source lines 124-143): after
the shape check, if `toWorld` is set and the node has a parent transform,
fetch `arrayFromTransformMatrix(parent)` — note: with the default
`toWorld=False`, i.e. the parent's transform-TO-PARENT matrix — compute
`thisToParent = np.dot(np.linalg.inv(that), narray)` in a fresh array and
recurse with `toWorld=False` (the unfolded
`updateTransformToParentFromArray`); otherwise set the node's
transform-to-parent from the array.  The branches marked "unreachable"
correspond to states the source cannot produce. -/
def updateTransformMatrixFromArray (h : Host) (nid rn : Nat) (toWorld : Bool) :
    Host × Option String :=
  match h.readRef rn with
  | some (.npMat4 a) =>
    match toWorld, h.getParentTransformNode nid with
    | true, some pid =>
      match arrayFromTransformMatrix h pid false with
      | (h1, Except.ok rp) =>
        match h1.readRef rp with
        | some (.npMat4 pmat) =>
          let q := h1.alloc (.npMat4 (npInv pmat * a))
          updateTransformToParentFromArray q.1 nid q.2
        | _ => (h1, some "unreachable")
      | (h1, Except.error e) => (h1, some e)
    | _, _ => updateTransformToParentFromArray h nid rn
  | _ => (h, some "Unsupported numpy array shape: expected (4,4)")

/-! ### The custom code (lines 146-202 of the source) -/

/-- Embeds `make_igtl_node` (source lines 149-160):
`slicer.vtkMRMLIGTLConnectorNode()` (a fresh connector, not yet a client,
not yet started), `slicer.mrmlScene.AddNode`, `SetName(name)`,
`SetTypeClient(ip, port)`, `Start()`; returns the connector. -/
def make_igtl_node (h : Host) (ip : String) (port : Int) (name : String) : Host × Nat :=
  let p := h.addNode "" (.connector false "" 0 false)
  let h2 := p.1.setNodeName p.2 name
  let h3 := h2.setTypeClient p.2 ip port
  let h4 := h3.connectorStart p.2
  (h4, p.2)

/-- Models `slicer.util.loadModel(mesh_filename, returnNode=True)`: loads
the mesh file, adding a display node and a model node attached to it to
the scene; returns the model node. -/
def Host.loadModel (h : Host) (filename : String) : Host × Nat :=
  let pd := h.addNode filename .modelDisplay
  pd.1.addNode filename (.model filename none (some pd.2))

/-- Models `vtkMRMLModelNode.GetDisplayNode()`. -/
def Host.getDisplayNode (h : Host) (nid : Nat) : Option Nat :=
  match h.findNode nid with
  | some n =>
    match n.data with
    | .model _ _ dID => dID
    | _ => none
  | none => none

/-- Models `node.SetAndObserveTransformNodeID(tid)` on a model node: the
model starts observing the transform node, so the host moves it whenever
the transform updates. -/
def Host.setAndObserveTransformNodeID (h : Host) (nid tid : Nat) : Host :=
  h.updNode nid (fun n => { n with data :=
    match n.data with
    | .model f _ dID => .model f (some tid) dID
    | d => d })

/-- The attributes a `SlicerMeshModel` instance holds after `__init__`
(host objects are represented by their node IDs). -/
structure SlicerMeshModel : Type where
  transform_name : String
  mesh_filename : String
  mesh_model_node : Nat
  mesh_nodeID : Nat
  transform_node : Nat
  transform_nodeID : Nat
  display_node : Option Nat

/-- Embeds `SlicerMeshModel.__init__` (source lines 167-179):
`slicer.util.loadModel`; `GetID`; `slicer.vtkMRMLTransformNode()` (a fresh
transform, identity to-parent, no parent) with `SetName(transform_name)`
and `slicer.mrmlScene.AddNode`; `GetID`; `GetDisplayNode`;
`SetAndObserveTransformNodeID`. -/
def SlicerMeshModel.init (h : Host) (transform_name mesh_filename : String) :
    Host × SlicerMeshModel :=
  let pm := h.loadModel mesh_filename
  let pt := pm.1.addNode transform_name (.transform 1 none)
  let dn := pt.1.getDisplayNode pm.2
  let h4 := pt.1.setAndObserveTransformNodeID pm.2 pt.2
  (h4, ⟨transform_name, mesh_filename, pm.2, pm.2, pt.2, pt.2, dn⟩)

/-- Models `slicer.util.loadLabelVolume(volume_filename, returnNode=True)`:
reads the volume file (`fs` gives each filename its voxel contents),
allocates the underlying voxel storage, and adds a label volume node
backed by that storage to the scene. -/
def Host.loadLabelVolume (fs : String → List Int) (h : Host) (filename : String) :
    Host × Nat :=
  let pb := h.alloc (.npVox (fs filename))
  pb.1.addNode filename (.labelVolume filename pb.2 [])

/-- Models `slicer.modules.volumerendering.logic()
.UpdateDisplayNodeFromVolumeNode(displayNode, volumeNode)`. -/
def Host.updateDisplayNodeFromVolumeNode (h : Host) (did vid : Nat) : Host :=
  h.updNode did (fun n => { n with data :=
    match n.data with
    | .volDisplay _ => .volDisplay (some vid)
    | d => d })

/-- Models `volumeNode.AddAndObserveDisplayNodeID(displayNodeID)`. -/
def Host.addAndObserveDisplayNodeID (h : Host) (vid did : Nat) : Host :=
  h.updNode vid (fun n => { n with data :=
    match n.data with
    | .labelVolume f r ds => .labelVolume f r (ds ++ [did])
    | d => d })

/-- Models `slicer.util.arrayFromVolume(volumeNode)`: returns a numpy view
that aliases the underlying voxel storage of the volume (the very same
buffer reference, not a copy). -/
def Host.arrayFromVolume (h : Host) (vid : Nat) : Option Nat :=
  match h.findNode vid with
  | some n =>
    match n.data with
    | .labelVolume _ r _ => some r
    | _ => none
  | none => none

/-- The attributes a `SlicerVolumeModel` instance holds after `__init__`. -/
structure SlicerVolumeModel : Type where
  label_volumeNode : Nat
  displayNode : Nat
  voxel_array : Option Nat

/-- Embeds `SlicerVolumeModel.__init__` (source lines 186-197):
`slicer.util.loadLabelVolume`;
`slicer.modules.volumerendering.logic().CreateVolumeRenderingDisplayNode()`
followed by `slicer.mrmlScene.AddNode` (the `UnRegister` call only drops a
reference count and has no scene effect, so it is not modelled);
`UpdateDisplayNodeFromVolumeNode`; `AddAndObserveDisplayNodeID`;
`slicer.util.arrayFromVolume`. -/
def SlicerVolumeModel.init (fs : String → List Int) (h : Host) (volume_filename : String) :
    Host × SlicerVolumeModel :=
  let pv := Host.loadLabelVolume fs h volume_filename
  let pd := pv.1.addNode "" (.volDisplay none)
  let h3 := pd.1.updateDisplayNodeFromVolumeNode pd.2 pv.2
  let h4 := h3.addAndObserveDisplayNodeID pv.2 pd.2
  (h4, ⟨pv.2, pd.2, h4.arrayFromVolume pv.2⟩)

/-- Embeds `SlicerVolumeModel.register_visual_change` (source lines
199-202): `self.label_volumeNode.Modified()` then
`self.displayNode.Modified()`; nothing else is touched. -/
def SlicerVolumeModel.register_visual_change (h : Host) (m : SlicerVolumeModel) :
    Host × SlicerVolumeModel :=
  ((h.nodeModified m.label_volumeNode).nodeModified m.displayNode, m)

/-- Models an in-place numpy write `array[i] = v` through an array view:
the buffer the view aliases is updated in place. -/
def Host.writeVoxel (h : Host) (r : Nat) (i : Nat) (v : Int) : Host :=
  match h.readRef r with
  | some (.npVox d) => h.writeRef r (.npVox (d.set i v))
  | _ => h

/-- The voxel contents of a volume node as seen through the host (the
node's underlying storage). -/
def Host.volumeVoxels (h : Host) (nid : Nat) : Option (List Int) :=
  match h.findNode nid with
  | some n =>
    match n.data with
    | .labelVolume _ r _ =>
      match h.readRef r with
      | some (.npVox d) => some d
      | _ => none
    | _ => none
  | none => none

/-! ### Predicates used to state the error-handling claim -/

/-- Whether a Python value is a `vtkMatrix4x4` or `vtkMatrix3x3`. -/
def ObjVal.isVtkMat : ObjVal → Bool
  | .vtk4 _ => true
  | .vtk3 _ => true
  | _ => false

/-- Whether a Python value is a numpy array (of any shape). -/
def ObjVal.isNpArr : ObjVal → Bool
  | .npMat4 _ => true
  | .npMat3 _ => true
  | .npVox _ => true
  | .npOther => true
  | _ => false

/-- Whether a numpy array has shape `(4,4)` or `(3,3)`. -/
def ObjVal.isSquareNp : ObjVal → Bool
  | .npMat4 _ => true
  | .npMat3 _ => true
  | _ => false

/-- Whether an array's shape matches a VTK matrix's size, the success
condition of `updateVTKMatrixFromArray`. -/
def updSizesMatch : ObjVal → ObjVal → Bool
  | .vtk4 _, .npMat4 _ => true
  | .vtk3 _, .npMat3 _ => true
  | _, _ => false

/-- Whether a call returning `Except` succeeded (did not raise). -/
def exceptOk : Except String Nat → Bool
  | .ok _ => true
  | .error _ => false

/-! ### Concrete host states used to evaluate the theorems -/

/-- A host holding one `vtkMatrix4x4` (the identity) at reference 0. -/
def hostVtk : Host := ⟨[], 0, [(0, .vtk4 1)], 1⟩

/-- A host holding a 4x4 numpy array at reference 0 and a 3x3 one at
reference 1. -/
def hostNp : Host := ⟨[], 0, [(0, .npMat4 1), (1, .npMat3 1)], 2⟩

/-- A host with one transform node and assorted store objects, used to
evaluate the error-condition theorem. -/
def hostErr : Host := ⟨[⟨0, "t", .transform 1 none, 0⟩], 1, [(0, .vtk4 1), (1, .npOther)], 2⟩

/-- A three-deep transform chain: grandparent `0` (to-parent `2 • 1`, the
doubling map), parent `1` (to-parent the identity, parent `0`), node `2`
(to-parent the identity, parent `1`); the store holds the 4x4 identity as
a numpy array at reference 0. -/
def hostChain : Host :=
  ⟨[⟨2, "t", .transform 1 (some 1), 0⟩,
    ⟨1, "p", .transform 1 (some 0), 0⟩,
    ⟨0, "g", .transform ((2 : ℚ) • (1 : Mat4)) none, 0⟩], 3,
   [(0, .npMat4 1)], 1⟩

/-- A volume model built on the empty host from a two-voxel file, used to
evaluate the volume theorems. -/
def volExample : Host × SlicerVolumeModel :=
  SlicerVolumeModel.init (fun _ => [7, 7]) Host.empty "vol.nrrd"

/-! ### Helper lemmas about the scene and the store -/


theorem findNodeIn_map_upd (l : List Node) (nid q : Nat) (f : Node → Node)
    (hf : ∀ n, (f n).id = n.id) :
    findNodeIn (l.map (fun n => if n.id == nid then f n else n)) q =
      if q = nid then (findNodeIn l q).map f else findNodeIn l q := by
  induction l with
  | nil => by_cases hq : q = nid <;> simp [findNodeIn, hq]
  | cons a l ih =>
    have hb : ((if (a.id == nid) = true then f a else a).id = a.id) := by
      by_cases h : (a.id == nid) = true <;> simp [h, hf]
    simp only [findNodeIn, List.map_cons] at ih ⊢
    by_cases hq : q = nid
    · rw [if_pos hq]
      by_cases hcond : a.id = q
      · rw [List.find?_cons_of_pos _ (by rw [hb, hcond]; exact beq_self_eq_true q),
            List.find?_cons_of_pos _ (by rw [hcond]; exact beq_self_eq_true q),
            Option.map_some']
        have hc : (a.id == nid) = true := by
          rw [hcond, hq]; exact beq_self_eq_true nid
        rw [if_pos hc]
      · rw [List.find?_cons_of_neg _ (by rw [hb]; simp [hcond]),
            List.find?_cons_of_neg _ (by simp [hcond])]
        rw [ih, if_pos hq]
    · rw [if_neg hq]
      by_cases hcond : a.id = q
      · rw [List.find?_cons_of_pos _ (by rw [hb, hcond]; exact beq_self_eq_true q),
            List.find?_cons_of_pos _ (by rw [hcond]; exact beq_self_eq_true q)]
        have hc : (a.id == nid) = false := by
          refine beq_eq_false_iff_ne.mpr ?_
          rw [hcond]; exact hq
        rw [if_neg (by simp [hc])]
      · rw [List.find?_cons_of_neg _ (by rw [hb]; simp [hcond]),
            List.find?_cons_of_neg _ (by simp [hcond])]
        rw [ih, if_neg hq]

theorem findNode_updNode (h : Host) (nid q : Nat) (f : Node → Node)
    (hf : ∀ n, (f n).id = n.id) :
    (h.updNode nid f).findNode q =
      if q = nid then (h.findNode q).map f else h.findNode q :=
  findNodeIn_map_upd h.nodes nid q f hf

theorem findNode_addNode (h : Host) (name : String) (d : NodeData) (q : Nat) :
    (h.addNode name d).1.findNode q =
      if q = h.nextNodeID then some ⟨h.nextNodeID, name, d, 0⟩ else h.findNode q := by
  by_cases hq : q = h.nextNodeID
  · subst hq
    rw [if_pos rfl, Host.addNode, Host.findNode, findNodeIn,
        List.find?_cons_of_pos _ (by simp)]
  · rw [if_neg hq, Host.addNode, Host.findNode, findNodeIn,
        List.find?_cons_of_neg _ (by simp [Ne.symm hq])]
    rfl

theorem findNodeIn_eq_none_of_ge (l : List Node) (k q : Nat)
    (hk : ∀ n ∈ l, n.id < k) (hq : k ≤ q) : findNodeIn l q = none := by
  induction l with
  | nil => rfl
  | cons a l ih =>
    have ha : a.id < k := hk a (List.mem_cons_self a l)
    rw [findNodeIn, List.find?_cons_of_neg _ (by simp; omega)]
    exact ih (fun n hn => hk n (List.mem_cons_of_mem a hn))

theorem findPair_map_write (l : List (Nat × ObjVal)) (r q : Nat) (v : ObjVal) :
    (l.map (fun p => if p.1 == r then (r, v) else p)).find? (fun p => p.1 == q) =
      if q = r then (l.find? (fun p => p.1 == q)).map (fun _ => (r, v))
      else l.find? (fun p => p.1 == q) := by
  induction l with
  | nil => by_cases hq : q = r <;> simp [hq]
  | cons a l ih =>
    have hb : ((if (a.1 == r) = true then (r, v) else a).1 = a.1) := by
      by_cases h : (a.1 == r) = true
      · have ha : a.1 = r := by simpa using h
        simp [h, ha]
      · simp [h]
    simp only [List.map_cons] at ih ⊢
    by_cases hq : q = r
    · rw [if_pos hq]
      by_cases hcond : a.1 = q
      · rw [List.find?_cons_of_pos _ (by rw [hb, hcond]; exact beq_self_eq_true q),
            List.find?_cons_of_pos _ (by rw [hcond]; exact beq_self_eq_true q),
            Option.map_some']
        have hc : (a.1 == r) = true := by
          rw [hcond, hq]; exact beq_self_eq_true r
        rw [if_pos hc]
      · rw [List.find?_cons_of_neg _ (by rw [hb]; simp [hcond]),
            List.find?_cons_of_neg _ (by simp [hcond])]
        rw [ih, if_pos hq]
    · rw [if_neg hq]
      by_cases hcond : a.1 = q
      · rw [List.find?_cons_of_pos _ (by rw [hb, hcond]; exact beq_self_eq_true q),
            List.find?_cons_of_pos _ (by rw [hcond]; exact beq_self_eq_true q)]
        have hc : (a.1 == r) = false := by
          refine beq_eq_false_iff_ne.mpr ?_
          rw [hcond]; exact hq
        rw [if_neg (by simp [hc])]
      · rw [List.find?_cons_of_neg _ (by rw [hb]; simp [hcond]),
            List.find?_cons_of_neg _ (by simp [hcond])]
        rw [ih, if_neg hq]

theorem readRef_writeRef (h : Host) (r q : Nat) (v : ObjVal) :
    (h.writeRef r v).readRef q =
      if q = r then (h.readRef q).map (fun _ => v) else h.readRef q := by
  rw [Host.writeRef, Host.readRef]
  show ((h.heap.map (fun p => if p.1 == r then (r, v) else p)).find?
      (fun p => p.1 == q)).map Prod.snd = _
  rw [findPair_map_write]
  by_cases hq : q = r
  · rw [if_pos hq, if_pos hq, Host.readRef, Option.map_map, Option.map_map]
    rfl
  · rw [if_neg hq, if_neg hq]
    rfl

theorem readRef_alloc (h : Host) (v : ObjVal) (q : Nat) :
    (h.alloc v).1.readRef q = if q = h.nextRef then some v else h.readRef q := by
  by_cases hq : q = h.nextRef
  · subst hq
    rw [if_pos rfl, Host.alloc, Host.readRef]
    show (((h.nextRef, v) :: h.heap).find? (fun p => p.1 == h.nextRef)).map Prod.snd = _
    rw [List.find?_cons_of_pos _ (by simp)]
    rfl
  · rw [if_neg hq, Host.alloc, Host.readRef]
    show (((h.nextRef, v) :: h.heap).find? (fun p => p.1 == q)).map Prod.snd = _
    rw [List.find?_cons_of_neg _ (by simp [Ne.symm hq])]
    rfl

theorem readRef_lt_of_some (h : Host) (r : Nat) (v : ObjVal) (hwf : h.WF)
    (hr : h.readRef r = some v) : r < h.nextRef := by
  rcases hwf with ⟨-, hheap⟩
  rw [Host.readRef] at hr
  rcases hfind : h.heap.find? (fun p => p.1 == r) with _ | p
  · rw [hfind] at hr; cases hr
  · have hp := List.find?_some hfind
    have hmem := List.mem_of_find?_eq_some hfind
    have hpr : p.1 = r := by simpa using hp
    have := hheap p hmem
    omega

theorem mem_of_findNode (h : Host) (nid : Nat) (n : Node)
    (hf : h.findNode nid = some n) : n ∈ h.nodes :=
  List.mem_of_find?_eq_some hf

theorem findNode_nodeModified (h : Host) (nid q : Nat) :
    (h.nodeModified nid).findNode q =
      if q = nid then (h.findNode q).map (fun n => { n with mtime := n.mtime + 1 })
      else h.findNode q :=
  findNode_updNode h nid q _ (fun _ => rfl)

theorem findNode_setNodeName (h : Host) (nid q : Nat) (name : String) :
    (h.setNodeName nid name).findNode q =
      if q = nid then (h.findNode q).map (fun n => { n with name := name })
      else h.findNode q :=
  findNode_updNode h nid q _ (fun _ => rfl)

theorem findNode_setTypeClient (h : Host) (nid q : Nat) (ip : String) (port : Int) :
    (h.setTypeClient nid ip port).findNode q =
      if q = nid then
        (h.findNode q).map (fun n => { n with data :=
          match n.data with
          | .connector _ _ _ st => .connector true ip port st
          | d => d })
      else h.findNode q :=
  findNode_updNode h nid q _ (fun _ => rfl)

theorem findNode_connectorStart (h : Host) (nid q : Nat) :
    (h.connectorStart nid).findNode q =
      if q = nid then
        (h.findNode q).map (fun n => { n with data :=
          match n.data with
          | .connector c ip port _ => .connector c ip port true
          | d => d })
      else h.findNode q :=
  findNode_updNode h nid q _ (fun _ => rfl)

theorem findNode_setObsTransform (h : Host) (nid tid q : Nat) :
    (h.setAndObserveTransformNodeID nid tid).findNode q =
      if q = nid then
        (h.findNode q).map (fun n => { n with data :=
          match n.data with
          | .model f _ dID => .model f (some tid) dID
          | d => d })
      else h.findNode q :=
  findNode_updNode h nid q _ (fun _ => rfl)

theorem findNode_updDisplayFromVolume (h : Host) (did vid q : Nat) :
    (h.updateDisplayNodeFromVolumeNode did vid).findNode q =
      if q = did then
        (h.findNode q).map (fun n => { n with data :=
          match n.data with
          | .volDisplay _ => .volDisplay (some vid)
          | d => d })
      else h.findNode q :=
  findNode_updNode h did q _ (fun _ => rfl)

theorem findNode_addObsDisplay (h : Host) (vid did q : Nat) :
    (h.addAndObserveDisplayNodeID vid did).findNode q =
      if q = vid then
        (h.findNode q).map (fun n => { n with data :=
          match n.data with
          | .labelVolume f r ds => .labelVolume f r (ds ++ [did])
          | d => d })
      else h.findNode q :=
  findNode_updNode h vid q _ (fun _ => rfl)

theorem findNode_setToParent (h : Host) (nid q : Nat) (m : Mat4) :
    (h.setMatrixTransformToParent nid m).findNode q =
      if q = nid then
        (h.findNode q).map (fun n => { n with data :=
          match n.data with
          | .transform _ par => .transform m par
          | d => d })
      else h.findNode q :=
  findNode_updNode h nid q _ (fun _ => rfl)

theorem npInv_one : npInv (1 : Mat4) = 1 := by
  simp [npInv]

/-! ### The claims -/

/-- Claim C1: for every ip string, port number and name string,
`make_igtl_node` returns a connector node that has been added to the host
scene graph, whose name equals the given name, that is configured as a
client of the given ip and port, and that has been started (the live
network link, modelled by the connector's `started` flag, is active when
the function returns). -/
theorem make_igtl_node_spec (h : Host) (ip : String) (port : Int) (name : String) :
    ∃ n : Node,
      (make_igtl_node h ip port name).1.findNode (make_igtl_node h ip port name).2 =
        some n ∧
      n ∈ (make_igtl_node h ip port name).1.nodes ∧
      n.name = name ∧
      n.data = .connector true ip port true := by
  have key : (make_igtl_node h ip port name).1.findNode h.nextNodeID =
      some ⟨h.nextNodeID, name, .connector true ip port true, 0⟩ := by
    show ((((h.addNode "" (.connector false "" 0 false)).1.setNodeName h.nextNodeID
        name).setTypeClient h.nextNodeID ip port).connectorStart h.nextNodeID).findNode
        h.nextNodeID = _
    rw [findNode_connectorStart, if_pos rfl, findNode_setTypeClient, if_pos rfl,
        findNode_setNodeName, if_pos rfl, findNode_addNode, if_pos rfl]
    rfl
  exact ⟨_, key, mem_of_findNode _ _ _ key, rfl, rfl⟩

/-- Claim C3: on every constructed volume model, `register_visual_change`
marks exactly the label volume node and its volume-rendering display node
as modified (their modification time is bumped, name and data untouched)
and changes no other state: the object itself is returned unchanged, the
object store and the counters are untouched, and every other node of the
scene is untouched. -/
theorem register_visual_change_spec (h : Host) (m : SlicerVolumeModel)
    (hne : m.label_volumeNode ≠ m.displayNode) :
    (SlicerVolumeModel.register_visual_change h m).2 = m ∧
    (SlicerVolumeModel.register_visual_change h m).1.heap = h.heap ∧
    (SlicerVolumeModel.register_visual_change h m).1.nextNodeID = h.nextNodeID ∧
    (SlicerVolumeModel.register_visual_change h m).1.nextRef = h.nextRef ∧
    (∀ q, q ≠ m.label_volumeNode → q ≠ m.displayNode →
      (SlicerVolumeModel.register_visual_change h m).1.findNode q = h.findNode q) ∧
    (SlicerVolumeModel.register_visual_change h m).1.findNode m.label_volumeNode =
      (h.findNode m.label_volumeNode).map (fun n => { n with mtime := n.mtime + 1 }) ∧
    (SlicerVolumeModel.register_visual_change h m).1.findNode m.displayNode =
      (h.findNode m.displayNode).map (fun n => { n with mtime := n.mtime + 1 }) := by
  refine ⟨rfl, rfl, rfl, rfl, ?_, ?_, ?_⟩
  · intro q hq1 hq2
    show ((h.nodeModified m.label_volumeNode).nodeModified m.displayNode).findNode q = _
    rw [findNode_nodeModified, if_neg hq2, findNode_nodeModified, if_neg hq1]
  · show ((h.nodeModified m.label_volumeNode).nodeModified m.displayNode).findNode
        m.label_volumeNode = _
    rw [findNode_nodeModified, if_neg hne, findNode_nodeModified, if_pos rfl]
  · show ((h.nodeModified m.label_volumeNode).nodeModified m.displayNode).findNode
        m.displayNode = _
    rw [findNode_nodeModified, if_pos rfl, findNode_nodeModified, if_neg (Ne.symm hne)]

/-- Witness for C3: the hypothesis and the first conclusion evaluated on
the concretely constructed volume model. -/
theorem register_visual_change_spec_witness :
    volExample.2.label_volumeNode ≠ volExample.2.displayNode ∧
    (SlicerVolumeModel.register_visual_change volExample.1 volExample.2).2 =
      volExample.2 :=
  ⟨by decide, (register_visual_change_spec volExample.1 volExample.2 (by decide)).1⟩

theorem findNodeIn_cons (n : Node) (l : List Node) (q : Nat) :
    findNodeIn (n :: l) q = if q = n.id then some n else findNodeIn l q := by
  by_cases hq : q = n.id
  · rw [if_pos hq, findNodeIn, List.find?_cons_of_pos _ (by simp [hq])]
  · rw [if_neg hq, findNodeIn, List.find?_cons_of_neg _ (by simp [Ne.symm hq])]
    rfl

/-- Claim C2: after `SlicerMeshModel.__init__` the scene contains a newly
created transform node (it was not in the scene before) named
`transform_name`, the mesh file has been loaded into the scene as a model
node (newly created as well), and that model node observes the new
transform node's ID. -/
theorem mesh_model_init_spec (h : Host) (tname fname : String) (hwf : h.WF) :
    ∃ tnode mnode : Node,
      (SlicerMeshModel.init h tname fname).1.findNode
        (SlicerMeshModel.init h tname fname).2.transform_nodeID = some tnode ∧
      tnode.name = tname ∧
      tnode.data = .transform 1 none ∧
      h.findNode (SlicerMeshModel.init h tname fname).2.transform_nodeID = none ∧
      (SlicerMeshModel.init h tname fname).1.findNode
        (SlicerMeshModel.init h tname fname).2.mesh_nodeID = some mnode ∧
      (∃ dID, mnode.data =
        .model fname (some (SlicerMeshModel.init h tname fname).2.transform_nodeID) dID) ∧
      h.findNode (SlicerMeshModel.init h tname fname).2.mesh_nodeID = none := by
  obtain ⟨hn, -⟩ := hwf
  have hne1 : ¬(h.nextNodeID + 1 + 1 = h.nextNodeID + 1) := by omega
  have hne2 : ¬(h.nextNodeID + 1 = h.nextNodeID + 1 + 1) := by omega
  refine ⟨⟨h.nextNodeID + 1 + 1, tname, .transform 1 none, 0⟩,
          ⟨h.nextNodeID + 1, fname,
            .model fname (some (h.nextNodeID + 1 + 1)) (some h.nextNodeID), 0⟩,
          ?_, rfl, rfl, ?_, ?_, ⟨some h.nextNodeID, rfl⟩, ?_⟩
  · show ((Host.mk
        (⟨h.nextNodeID + 1 + 1, tname, .transform 1 none, 0⟩ ::
         ⟨h.nextNodeID + 1, fname, .model fname none (some h.nextNodeID), 0⟩ ::
         ⟨h.nextNodeID, fname, .modelDisplay, 0⟩ :: h.nodes)
        (h.nextNodeID + 1 + 1 + 1) h.heap h.nextRef).setAndObserveTransformNodeID
        (h.nextNodeID + 1) (h.nextNodeID + 1 + 1)).findNode (h.nextNodeID + 1 + 1) =
      some ⟨h.nextNodeID + 1 + 1, tname, .transform 1 none, 0⟩
    rw [findNode_setObsTransform, if_neg hne1]
    simp [Host.findNode, findNodeIn_cons]
  · exact findNodeIn_eq_none_of_ge h.nodes h.nextNodeID (h.nextNodeID + 1 + 1) hn
      (by omega)
  · show ((Host.mk
        (⟨h.nextNodeID + 1 + 1, tname, .transform 1 none, 0⟩ ::
         ⟨h.nextNodeID + 1, fname, .model fname none (some h.nextNodeID), 0⟩ ::
         ⟨h.nextNodeID, fname, .modelDisplay, 0⟩ :: h.nodes)
        (h.nextNodeID + 1 + 1 + 1) h.heap h.nextRef).setAndObserveTransformNodeID
        (h.nextNodeID + 1) (h.nextNodeID + 1 + 1)).findNode (h.nextNodeID + 1) =
      some ⟨h.nextNodeID + 1, fname,
        .model fname (some (h.nextNodeID + 1 + 1)) (some h.nextNodeID), 0⟩
    rw [findNode_setObsTransform, if_pos rfl]
    simp [Host.findNode, findNodeIn_cons, hne2]
  · exact findNodeIn_eq_none_of_ge h.nodes h.nextNodeID (h.nextNodeID + 1) hn
      (by omega)

/-- Witness for C2: the claim evaluated on the empty host. -/
theorem mesh_model_init_spec_witness :
    Host.WF Host.empty ∧
    (∃ tnode mnode : Node,
      (SlicerMeshModel.init Host.empty "tf" "mesh.stl").1.findNode
        (SlicerMeshModel.init Host.empty "tf" "mesh.stl").2.transform_nodeID = some tnode ∧
      tnode.name = "tf" ∧
      tnode.data = .transform 1 none ∧
      Host.empty.findNode
        (SlicerMeshModel.init Host.empty "tf" "mesh.stl").2.transform_nodeID = none ∧
      (SlicerMeshModel.init Host.empty "tf" "mesh.stl").1.findNode
        (SlicerMeshModel.init Host.empty "tf" "mesh.stl").2.mesh_nodeID = some mnode ∧
      (∃ dID, mnode.data = .model "mesh.stl"
        (some (SlicerMeshModel.init Host.empty "tf" "mesh.stl").2.transform_nodeID) dID) ∧
      Host.empty.findNode
        (SlicerMeshModel.init Host.empty "tf" "mesh.stl").2.mesh_nodeID = none) :=
  ⟨by decide, mesh_model_init_spec Host.empty "tf" "mesh.stl" (by decide)⟩

theorem findPair_cons (a : Nat × ObjVal) (l : List (Nat × ObjVal)) (q : Nat) :
    (a :: l).find? (fun p => p.1 == q) =
      if q = a.1 then some a else l.find? (fun p => p.1 == q) := by
  by_cases hq : q = a.1
  · rw [if_pos hq, List.find?_cons_of_pos _ (by simp [hq])]
  · rw [if_neg hq, List.find?_cons_of_neg _ (by simp [Ne.symm hq])]

theorem findNode_writeRef (h : Host) (r : Nat) (v : ObjVal) (q : Nat) :
    (h.writeRef r v).findNode q = h.findNode q := rfl

theorem readRef_nodeModified (h : Host) (nid r : Nat) :
    (h.nodeModified nid).readRef r = h.readRef r := rfl

theorem volume_init_run (fs : String → List Int) (h : Host) (fname : String) :
    (SlicerVolumeModel.init fs h fname).1.findNode h.nextNodeID =
      some ⟨h.nextNodeID, fname,
        .labelVolume fname h.nextRef [h.nextNodeID + 1], 0⟩ ∧
    (SlicerVolumeModel.init fs h fname).1.findNode (h.nextNodeID + 1) =
      some ⟨h.nextNodeID + 1, "", .volDisplay (some h.nextNodeID), 0⟩ ∧
    (SlicerVolumeModel.init fs h fname).1.heap =
      (h.nextRef, .npVox (fs fname)) :: h.heap ∧
    (SlicerVolumeModel.init fs h fname).2.label_volumeNode = h.nextNodeID ∧
    (SlicerVolumeModel.init fs h fname).2.displayNode = h.nextNodeID + 1 ∧
    (SlicerVolumeModel.init fs h fname).2.voxel_array = some h.nextRef := by
  have hne1 : ¬(h.nextNodeID = h.nextNodeID + 1) := by omega
  have hne2 : ¬(h.nextNodeID + 1 = h.nextNodeID) := by omega
  have h1 : (SlicerVolumeModel.init fs h fname).1.findNode h.nextNodeID =
      some ⟨h.nextNodeID, fname,
        .labelVolume fname h.nextRef [h.nextNodeID + 1], 0⟩ := by
    show (((Host.mk
        (⟨h.nextNodeID + 1, "", .volDisplay none, 0⟩ ::
         ⟨h.nextNodeID, fname, .labelVolume fname h.nextRef [], 0⟩ :: h.nodes)
        (h.nextNodeID + 1 + 1) ((h.nextRef, .npVox (fs fname)) :: h.heap)
        (h.nextRef + 1)).updateDisplayNodeFromVolumeNode (h.nextNodeID + 1)
        h.nextNodeID).addAndObserveDisplayNodeID h.nextNodeID
        (h.nextNodeID + 1)).findNode h.nextNodeID = _
    rw [findNode_addObsDisplay, if_pos rfl, findNode_updDisplayFromVolume, if_neg hne1]
    simp [Host.findNode, findNodeIn_cons, hne1]
  have h2 : (SlicerVolumeModel.init fs h fname).1.findNode (h.nextNodeID + 1) =
      some ⟨h.nextNodeID + 1, "", .volDisplay (some h.nextNodeID), 0⟩ := by
    show (((Host.mk
        (⟨h.nextNodeID + 1, "", .volDisplay none, 0⟩ ::
         ⟨h.nextNodeID, fname, .labelVolume fname h.nextRef [], 0⟩ :: h.nodes)
        (h.nextNodeID + 1 + 1) ((h.nextRef, .npVox (fs fname)) :: h.heap)
        (h.nextRef + 1)).updateDisplayNodeFromVolumeNode (h.nextNodeID + 1)
        h.nextNodeID).addAndObserveDisplayNodeID h.nextNodeID
        (h.nextNodeID + 1)).findNode (h.nextNodeID + 1) = _
    rw [findNode_addObsDisplay, if_neg hne2, findNode_updDisplayFromVolume, if_pos rfl]
    simp [Host.findNode, findNodeIn_cons]
  refine ⟨h1, h2, rfl, rfl, rfl, ?_⟩
  show (SlicerVolumeModel.init fs h fname).1.arrayFromVolume h.nextNodeID = some h.nextRef
  rw [Host.arrayFromVolume, h1]

/-- Claim C6: after `SlicerVolumeModel.__init__` the label volume has been
loaded into the scene (a fresh label volume node for the file), a
volume-rendering display node has been created and added to the scene
(fresh as well), that display node has been updated from the volume node,
and the volume node observes the display node's ID. -/
theorem volume_model_init_spec (fs : String → List Int) (h : Host) (fname : String)
    (hwf : h.WF) :
    ∃ vnode dnode : Node,
      (SlicerVolumeModel.init fs h fname).1.findNode
        (SlicerVolumeModel.init fs h fname).2.label_volumeNode = some vnode ∧
      (∃ r, vnode.data =
        .labelVolume fname r [(SlicerVolumeModel.init fs h fname).2.displayNode]) ∧
      h.findNode (SlicerVolumeModel.init fs h fname).2.label_volumeNode = none ∧
      (SlicerVolumeModel.init fs h fname).1.findNode
        (SlicerVolumeModel.init fs h fname).2.displayNode = some dnode ∧
      dnode.data =
        .volDisplay (some (SlicerVolumeModel.init fs h fname).2.label_volumeNode) ∧
      h.findNode (SlicerVolumeModel.init fs h fname).2.displayNode = none := by
  obtain ⟨h1, h2, -, h4, h5, -⟩ := volume_init_run fs h fname
  obtain ⟨hn, -⟩ := hwf
  refine ⟨⟨h.nextNodeID, fname, .labelVolume fname h.nextRef [h.nextNodeID + 1], 0⟩,
          ⟨h.nextNodeID + 1, "", .volDisplay (some h.nextNodeID), 0⟩,
          ?_, ⟨h.nextRef, ?_⟩, ?_, ?_, ?_, ?_⟩
  · rw [h4]; exact h1
  · rw [h5]
  · rw [h4]
    exact findNodeIn_eq_none_of_ge h.nodes h.nextNodeID h.nextNodeID hn (by omega)
  · rw [h5]; exact h2
  · rw [h4]
  · rw [h5]
    exact findNodeIn_eq_none_of_ge h.nodes h.nextNodeID (h.nextNodeID + 1) hn (by omega)

/-- Witness for C6: the claim evaluated on the empty host. -/
theorem volume_model_init_spec_witness :
    Host.WF Host.empty ∧
    (∃ vnode dnode : Node,
      (SlicerVolumeModel.init (fun _ => [7, 7]) Host.empty "vol.nrrd").1.findNode
        (SlicerVolumeModel.init (fun _ => [7, 7]) Host.empty
          "vol.nrrd").2.label_volumeNode = some vnode ∧
      (∃ r, vnode.data = .labelVolume "vol.nrrd" r
        [(SlicerVolumeModel.init (fun _ => [7, 7]) Host.empty "vol.nrrd").2.displayNode]) ∧
      Host.empty.findNode
        (SlicerVolumeModel.init (fun _ => [7, 7]) Host.empty
          "vol.nrrd").2.label_volumeNode = none ∧
      (SlicerVolumeModel.init (fun _ => [7, 7]) Host.empty "vol.nrrd").1.findNode
        (SlicerVolumeModel.init (fun _ => [7, 7]) Host.empty
          "vol.nrrd").2.displayNode = some dnode ∧
      dnode.data = .volDisplay (some (SlicerVolumeModel.init (fun _ => [7, 7]) Host.empty
        "vol.nrrd").2.label_volumeNode) ∧
      Host.empty.findNode
        (SlicerVolumeModel.init (fun _ => [7, 7]) Host.empty
          "vol.nrrd").2.displayNode = none) :=
  ⟨by decide, volume_model_init_spec (fun _ => [7, 7]) Host.empty "vol.nrrd" (by decide)⟩

/-- Claim C4: the `voxel_array` attribute of a constructed
`SlicerVolumeModel` aliases the host's underlying voxel storage of the
loaded label volume (it is the very storage reference, not a copy): the
volume's storage initially holds the file contents, every in-place write
through `voxel_array` is a write to the volume's storage, and after
`register_visual_change` the written data is still what the volume holds
while the volume node has received the modified notification that makes
the host re-render it. -/
theorem voxel_array_alias_spec (fs : String → List Int) (h : Host) (fname : String) :
    ∃ r : Nat,
      (SlicerVolumeModel.init fs h fname).2.voxel_array = some r ∧
      (SlicerVolumeModel.init fs h fname).1.volumeVoxels
        (SlicerVolumeModel.init fs h fname).2.label_volumeNode = some (fs fname) ∧
      (∀ i : Nat, ∀ v : Int,
        ((SlicerVolumeModel.init fs h fname).1.writeVoxel r i v).volumeVoxels
          (SlicerVolumeModel.init fs h fname).2.label_volumeNode =
          some ((fs fname).set i v)) ∧
      (∀ i : Nat, ∀ v : Int,
        (SlicerVolumeModel.register_visual_change
          ((SlicerVolumeModel.init fs h fname).1.writeVoxel r i v)
          (SlicerVolumeModel.init fs h fname).2).1.volumeVoxels
          (SlicerVolumeModel.init fs h fname).2.label_volumeNode =
          some ((fs fname).set i v) ∧
        ((SlicerVolumeModel.register_visual_change
          ((SlicerVolumeModel.init fs h fname).1.writeVoxel r i v)
          (SlicerVolumeModel.init fs h fname).2).1.findNode
          (SlicerVolumeModel.init fs h fname).2.label_volumeNode).map Node.mtime =
        (((SlicerVolumeModel.init fs h fname).1.writeVoxel r i v).findNode
          (SlicerVolumeModel.init fs h fname).2.label_volumeNode).map
          (fun n => n.mtime + 1)) := by
  obtain ⟨h1, -, hheap, h4, h5, h6⟩ := volume_init_run fs h fname
  have hne1 : ¬(h.nextNodeID = h.nextNodeID + 1) := by omega
  have hrd : (SlicerVolumeModel.init fs h fname).1.readRef h.nextRef =
      some (.npVox (fs fname)) := by
    rw [Host.readRef, hheap, findPair_cons, if_pos rfl]
    rfl
  refine ⟨h.nextRef, h6, ?_, ?_, ?_⟩
  · rw [Host.volumeVoxels, h4, h1]
    simp [hrd]
  · intro i v
    have hw : (SlicerVolumeModel.init fs h fname).1.writeVoxel h.nextRef i v =
        (SlicerVolumeModel.init fs h fname).1.writeRef h.nextRef
          (.npVox ((fs fname).set i v)) := by
      rw [Host.writeVoxel, hrd]
    rw [hw, Host.volumeVoxels, h4, findNode_writeRef, h1]
    simp [readRef_writeRef, hrd]
  · intro i v
    have hw : (SlicerVolumeModel.init fs h fname).1.writeVoxel h.nextRef i v =
        (SlicerVolumeModel.init fs h fname).1.writeRef h.nextRef
          (.npVox ((fs fname).set i v)) := by
      rw [Host.writeVoxel, hrd]
    have hfw : ((SlicerVolumeModel.init fs h fname).1.writeVoxel h.nextRef i v).findNode
        h.nextNodeID =
        some ⟨h.nextNodeID, fname,
          .labelVolume fname h.nextRef [h.nextNodeID + 1], 0⟩ := by
      rw [hw, findNode_writeRef]; exact h1
    have hrw : ((SlicerVolumeModel.init fs h fname).1.writeVoxel h.nextRef i v).readRef
        h.nextRef = some (.npVox ((fs fname).set i v)) := by
      rw [hw, readRef_writeRef, if_pos rfl, hrd]
      rfl
    constructor
    · show ((((SlicerVolumeModel.init fs h fname).1.writeVoxel
          h.nextRef i v).nodeModified
          (SlicerVolumeModel.init fs h fname).2.label_volumeNode).nodeModified
          (SlicerVolumeModel.init fs h fname).2.displayNode).volumeVoxels
          (SlicerVolumeModel.init fs h fname).2.label_volumeNode = _
      rw [h4, h5, Host.volumeVoxels, findNode_nodeModified, if_neg hne1,
          findNode_nodeModified, if_pos rfl, hfw]
      simp [readRef_nodeModified, hrw]
    · show (((((SlicerVolumeModel.init fs h fname).1.writeVoxel
          h.nextRef i v).nodeModified
          (SlicerVolumeModel.init fs h fname).2.label_volumeNode).nodeModified
          (SlicerVolumeModel.init fs h fname).2.displayNode).findNode
          (SlicerVolumeModel.init fs h fname).2.label_volumeNode).map Node.mtime = _
      rw [h4, h5, findNode_nodeModified, if_neg hne1, findNode_nodeModified,
          if_pos rfl, hfw]
      rfl

theorem alloc_snd (h : Host) (v : ObjVal) : (h.alloc v).2 = h.nextRef := rfl

/-- Claim C5: for every `vtkMatrix4x4`, `arrayFromVTKMatrix` returns a 4x4
numpy array whose entries equal the matrix's elements, and for every
`vtkMatrix3x3` the corresponding 3x3 array; the returned array is a fresh
copy (a reference distinct from the input matrix), so overwriting the
array afterwards leaves the input matrix unchanged. -/
theorem arrayFromVTKMatrix_spec (h : Host) (r : Nat) (hwf : h.WF) :
    (∀ m : Mat4, h.readRef r = some (.vtk4 m) →
      ∃ rn : Nat, ∃ h2 : Host,
        arrayFromVTKMatrix h r = (h2, .ok rn) ∧
        h2.readRef rn = some (.npMat4 m) ∧
        rn ≠ r ∧
        (∀ w : ObjVal, (h2.writeRef rn w).readRef r = some (.vtk4 m))) ∧
    (∀ m : Mat3, h.readRef r = some (.vtk3 m) →
      ∃ rn : Nat, ∃ h2 : Host,
        arrayFromVTKMatrix h r = (h2, .ok rn) ∧
        h2.readRef rn = some (.npMat3 m) ∧
        rn ≠ r ∧
        (∀ w : ObjVal, (h2.writeRef rn w).readRef r = some (.vtk3 m))) := by
  constructor
  · intro m hm
    have hlt : r < h.nextRef := readRef_lt_of_some h r _ hwf hm
    have hner : ¬(r = h.nextRef) := by omega
    refine ⟨h.nextRef,
      (h.alloc (.npMat4 1)).1.writeRef h.nextRef (.npMat4 m), ?_, ?_, ?_, ?_⟩
    · rw [arrayFromVTKMatrix, hm]
      rfl
    · rw [readRef_writeRef, if_pos rfl, readRef_alloc, if_pos rfl]
      rfl
    · omega
    · intro w
      rw [readRef_writeRef, if_neg hner, readRef_writeRef, if_neg hner,
          readRef_alloc, if_neg hner]
      exact hm
  · intro m hm
    have hlt : r < h.nextRef := readRef_lt_of_some h r _ hwf hm
    have hner : ¬(r = h.nextRef) := by omega
    refine ⟨h.nextRef,
      (h.alloc (.npMat3 1)).1.writeRef h.nextRef (.npMat3 m), ?_, ?_, ?_, ?_⟩
    · rw [arrayFromVTKMatrix, hm]
      rfl
    · rw [readRef_writeRef, if_pos rfl, readRef_alloc, if_pos rfl]
      rfl
    · omega
    · intro w
      rw [readRef_writeRef, if_neg hner, readRef_writeRef, if_neg hner,
          readRef_alloc, if_neg hner]
      exact hm

/-- Witness for C5: the claim evaluated on a host holding one
`vtkMatrix4x4` (the identity) at reference 0. -/
theorem arrayFromVTKMatrix_spec_witness :
    ∃ rn : Nat, ∃ h2 : Host,
      arrayFromVTKMatrix hostVtk 0 = (h2, .ok rn) ∧
      h2.readRef rn = some (.npMat4 1) ∧
      rn ≠ 0 ∧
      (∀ w : ObjVal, (h2.writeRef rn w).readRef 0 = some (.vtk4 1)) :=
  (arrayFromVTKMatrix_spec hostVtk 0 (by decide)).1 1 rfl

theorem writeRef_nextRef (h : Host) (r : Nat) (v : ObjVal) :
    (h.writeRef r v).nextRef = h.nextRef := rfl

theorem alloc_nextRef (h : Host) (v : ObjVal) : (h.alloc v).1.nextRef = h.nextRef + 1 :=
  rfl

/-- Claim C7: converting a 4x4 or 3x3 numpy array to a VTK matrix with
`vtkMatrixFromArray` and reading it back with `arrayFromVTKMatrix` yields
an array with the original entries. -/
theorem vtk_matrix_roundtrip (h : Host) (r : Nat) (hwf : h.WF) :
    (∀ a : Mat4, h.readRef r = some (.npMat4 a) →
      ∃ h1 : Host, ∃ rv : Nat, ∃ h2 : Host, ∃ ra : Nat,
        vtkMatrixFromArray h r = (h1, .ok rv) ∧
        arrayFromVTKMatrix h1 rv = (h2, .ok ra) ∧
        h2.readRef ra = some (.npMat4 a)) ∧
    (∀ a : Mat3, h.readRef r = some (.npMat3 a) →
      ∃ h1 : Host, ∃ rv : Nat, ∃ h2 : Host, ∃ ra : Nat,
        vtkMatrixFromArray h r = (h1, .ok rv) ∧
        arrayFromVTKMatrix h1 rv = (h2, .ok ra) ∧
        h2.readRef ra = some (.npMat3 a)) := by
  constructor
  · intro a ha
    have hlt : r < h.nextRef := readRef_lt_of_some h r _ hwf ha
    have hner : ¬(r = h.nextRef) := by omega
    have hupd : updateVTKMatrixFromArray (h.alloc (.vtk4 1)).1 h.nextRef r =
        ((h.alloc (.vtk4 1)).1.writeRef h.nextRef (.vtk4 a), none) := by
      rw [updateVTKMatrixFromArray, readRef_alloc, if_pos rfl,
          readRef_alloc, if_neg hner, ha]
    have hv : ((h.alloc (.vtk4 1)).1.writeRef h.nextRef (.vtk4 a)).readRef h.nextRef =
        some (.vtk4 a) := by
      rw [readRef_writeRef, if_pos rfl, readRef_alloc, if_pos rfl]
      rfl
    refine ⟨(h.alloc (.vtk4 1)).1.writeRef h.nextRef (.vtk4 a), h.nextRef,
      (((h.alloc (.vtk4 1)).1.writeRef h.nextRef (.vtk4 a)).alloc
        (.npMat4 1)).1.writeRef (h.nextRef + 1) (.npMat4 a), h.nextRef + 1,
      ?_, ?_, ?_⟩
    · rw [vtkMatrixFromArray, ha]
      simp only [alloc_snd, hupd]
    · rw [arrayFromVTKMatrix, hv]
      rfl
    · rw [readRef_writeRef, if_pos rfl, readRef_alloc, writeRef_nextRef, alloc_nextRef,
          if_pos rfl]
      rfl
  · intro a ha
    have hlt : r < h.nextRef := readRef_lt_of_some h r _ hwf ha
    have hner : ¬(r = h.nextRef) := by omega
    have hupd : updateVTKMatrixFromArray (h.alloc (.vtk3 1)).1 h.nextRef r =
        ((h.alloc (.vtk3 1)).1.writeRef h.nextRef (.vtk3 a), none) := by
      rw [updateVTKMatrixFromArray, readRef_alloc, if_pos rfl,
          readRef_alloc, if_neg hner, ha]
    have hv : ((h.alloc (.vtk3 1)).1.writeRef h.nextRef (.vtk3 a)).readRef h.nextRef =
        some (.vtk3 a) := by
      rw [readRef_writeRef, if_pos rfl, readRef_alloc, if_pos rfl]
      rfl
    refine ⟨(h.alloc (.vtk3 1)).1.writeRef h.nextRef (.vtk3 a), h.nextRef,
      (((h.alloc (.vtk3 1)).1.writeRef h.nextRef (.vtk3 a)).alloc
        (.npMat3 1)).1.writeRef (h.nextRef + 1) (.npMat3 a), h.nextRef + 1,
      ?_, ?_, ?_⟩
    · rw [vtkMatrixFromArray, ha]
      simp only [alloc_snd, hupd]
    · rw [arrayFromVTKMatrix, hv]
      rfl
    · rw [readRef_writeRef, if_pos rfl, readRef_alloc, writeRef_nextRef, alloc_nextRef,
          if_pos rfl]
      rfl

/-- Witness for C7: the roundtrip evaluated on a host holding a 4x4 numpy
identity at reference 0. -/
theorem vtk_matrix_roundtrip_witness :
    ∃ h1 : Host, ∃ rv : Nat, ∃ h2 : Host, ∃ ra : Nat,
      vtkMatrixFromArray hostNp 0 = (h1, .ok rv) ∧
      arrayFromVTKMatrix h1 rv = (h2, .ok ra) ∧
      h2.readRef ra = some (.npMat4 1) :=
  (vtk_matrix_roundtrip hostNp 0 (by decide)).1 1 rfl

theorem getToWorld_alloc (h : Host) (v : ObjVal) (nid : Nat) :
    (h.alloc v).1.getMatrixTransformToWorld nid = h.getMatrixTransformToWorld nid := rfl

theorem getToParent_alloc (h : Host) (v : ObjVal) (nid : Nat) :
    (h.alloc v).1.getMatrixTransformToParent nid = h.getMatrixTransformToParent nid :=
  rfl

/-- Claim C8: the matrix conversion helpers raise `RuntimeError` exactly
on invalid inputs and otherwise succeed: `arrayFromVTKMatrix` raises iff
its argument is neither `vtkMatrix4x4` nor `vtkMatrix3x3`;
`vtkMatrixFromArray` raises iff the array shape is neither `(4,4)` nor
`(3,3)`; `updateVTKMatrixFromArray` raises iff the matrix is not a VTK
matrix or the array shape does not match the matrix size, and on a raise
the state (in particular the output matrix) is left unchanged;
`arrayFromTransformMatrix` raises iff the host reports failure to produce
the requested transform matrix. -/
theorem matrix_helpers_error_spec (h : Host) (hwf : h.WF) :
    (∀ r : Nat, ∀ v : ObjVal, h.readRef r = some v →
      exceptOk (arrayFromVTKMatrix h r).2 = v.isVtkMat) ∧
    (∀ r : Nat, ∀ v : ObjVal, h.readRef r = some v → v.isNpArr = true →
      exceptOk (vtkMatrixFromArray h r).2 = v.isSquareNp) ∧
    (∀ rv rn : Nat, ∀ vv vn : ObjVal,
      h.readRef rv = some vv → h.readRef rn = some vn → vn.isNpArr = true →
      (((updateVTKMatrixFromArray h rv rn).2 = none) ↔ updSizesMatch vv vn = true) ∧
      ((updateVTKMatrixFromArray h rv rn).2 ≠ none →
        (updateVTKMatrixFromArray h rv rn).1 = h)) ∧
    (∀ nid : Nat, ∀ toWorld : Bool,
      exceptOk (arrayFromTransformMatrix h nid toWorld).2 =
        (if toWorld then h.getMatrixTransformToWorld nid
         else h.getMatrixTransformToParent nid).isSome) := by
  refine ⟨?_, ?_, ?_, ?_⟩
  · intro r v hv
    cases v <;> (rw [arrayFromVTKMatrix, hv]; rfl)
  · intro r v hv hnp
    have hlt : r < h.nextRef := readRef_lt_of_some h r _ hwf hv
    have hner : ¬(r = h.nextRef) := by omega
    cases v with
    | npMat4 a =>
      have hupd : updateVTKMatrixFromArray (h.alloc (.vtk4 1)).1 h.nextRef r =
          ((h.alloc (.vtk4 1)).1.writeRef h.nextRef (.vtk4 a), none) := by
        rw [updateVTKMatrixFromArray, readRef_alloc, if_pos rfl, readRef_alloc,
            if_neg hner, hv]
      rw [vtkMatrixFromArray, hv]
      simp [alloc_snd, hupd, exceptOk, ObjVal.isSquareNp]
    | npMat3 a =>
      have hupd : updateVTKMatrixFromArray (h.alloc (.vtk3 1)).1 h.nextRef r =
          ((h.alloc (.vtk3 1)).1.writeRef h.nextRef (.vtk3 a), none) := by
        rw [updateVTKMatrixFromArray, readRef_alloc, if_pos rfl, readRef_alloc,
            if_neg hner, hv]
      rw [vtkMatrixFromArray, hv]
      simp [alloc_snd, hupd, exceptOk, ObjVal.isSquareNp]
    | npVox d =>
      rw [vtkMatrixFromArray, hv]
      rfl
    | npOther =>
      rw [vtkMatrixFromArray, hv]
      rfl
    | vtk4 m => exact Bool.noConfusion hnp
    | vtk3 m => exact Bool.noConfusion hnp
    | pyOther => exact Bool.noConfusion hnp
  · intro rv rn vv vn hrv hrn hnp
    cases vv <;> cases vn <;>
      first
        | exact Bool.noConfusion hnp
        | (rw [updateVTKMatrixFromArray, hrv, hrn]; simp [updSizesMatch])
  · intro nid toWorld
    rw [arrayFromTransformMatrix]
    simp only [alloc_snd, getToWorld_alloc, getToParent_alloc]
    cases hG : (if toWorld then h.getMatrixTransformToWorld nid
        else h.getMatrixTransformToParent nid) with
    | none => rfl
    | some m =>
      have hv : ((h.alloc (.vtk4 1)).1.writeRef h.nextRef (.vtk4 m)).readRef h.nextRef =
          some (.vtk4 m) := by
        rw [readRef_writeRef, if_pos rfl, readRef_alloc, if_pos rfl]
        rfl
      show exceptOk (arrayFromVTKMatrix
        ((h.alloc (.vtk4 1)).1.writeRef h.nextRef (.vtk4 m)) h.nextRef).2 =
        (some m).isSome
      rw [arrayFromVTKMatrix, hv]
      rfl

/-- Witness for C8: two of the error conditions evaluated on a concrete
host (a numpy array of unsupported shape raises in `arrayFromVTKMatrix`;
`arrayFromTransformMatrix` succeeds on a linear transform node). -/
theorem matrix_helpers_error_spec_witness :
    exceptOk (arrayFromVTKMatrix hostErr 1).2 = ObjVal.isVtkMat .npOther ∧
    exceptOk (arrayFromTransformMatrix hostErr 0 false).2 =
      (if false then hostErr.getMatrixTransformToWorld 0
       else hostErr.getMatrixTransformToParent 0).isSome :=
  ⟨(matrix_helpers_error_spec hostErr (by decide)).1 1 .npOther rfl,
   (matrix_helpers_error_spec hostErr (by decide)).2.2.2 0 false⟩

/-- Claim C9 (the code diverges from it): with `toWorld=True` on a node
whose parent transform itself has a parent, `updateTransformMatrixFromArray`
does not make the node's transform-to-world equal to `narray`: the source
fetches `arrayFromTransformMatrix(parent)` with the default
`toWorld=False` (the parent's transform-TO-PARENT matrix) where its own
comment (`inv(parentToWorld)`) and its docstring call for the parent's
transform-to-world.  On the chain `hostChain` — parent transform the
identity (so invertible), grandparent the doubling map — with `narray`
the identity, the call succeeds but the node's resulting
transform-to-world is the doubling map, not the identity the claim and
the docstring promise. -/
theorem updateTransform_toWorld_bug :
    (updateTransformMatrixFromArray hostChain 2 0 true).2 = none ∧
    hostChain.readRef 0 = some (.npMat4 (1 : Mat4)) ∧
    (updateTransformMatrixFromArray hostChain 2 0 true).1.getMatrixTransformToWorld 2 ≠
      some (1 : Mat4) := by
  refine ⟨rfl, rfl, ?_⟩
  intro hcon
  have hGet : (updateTransformMatrixFromArray hostChain 2 0
        true).1.getMatrixTransformToWorld 2 =
      some (((2 : ℚ) • (1 : Mat4)) * 1 * (npInv 1 * 1)) := rfl
  rw [hGet] at hcon
  have h1 : ((2 : ℚ) • (1 : Mat4)) * 1 * (npInv 1 * 1) = 1 := Option.some.inj hcon
  rw [npInv_one, mul_one, mul_one, mul_one] at h1
  have h2 : ((2 : ℚ) • (1 : Mat4)) 0 0 = (1 : Mat4) 0 0 := by rw [h1]
  rw [Matrix.smul_apply, Matrix.one_apply_eq, smul_eq_mul, mul_one] at h2
  exact absurd h2 (by norm_num)
